import Mathlib

/-!
# ulog: a context-carrying logging handle

A shallow embedding of `ulog.go` (package `ulog`) and the properties of its
gating, line layout, context rendering and handle derivation.

Modelling conventions.

* The package-level variables (`OutputConfig`, the style variables `LInfo` ...
  `SVal`, `DefaultLogger`) and everything the code reads from its environment
  (the clock, the heap of `Stat` values, the lines received by the loggers) are
  the fields of one `World` value that every operation takes and returns.
* A `*Stat` is an address into `World.heap`; an address outside the heap plays
  the role of the nil pointer, and a method that dereferences it returns `none`
  (the Go code panics there).
* The call stack that `runtime.Caller` inspects is an explicit list of frames,
  innermost first.  Every operation receives the stack of its caller and pushes
  its own frame before calling a helper.
* `fmt.Sprintf` is described for the formats the package itself builds: text,
  `%%`, and the verbs `%v`, `%s` and `%d` on operands whose rendering under
  that verb is known.  On every other call (a flag, a width, a precision, an
  argument index, another verb, an operand the verb does not fit) `Sprintf` is
  the library function itself, a field of `Lib`.  A Go value is seen through
  its dynamic type name and its renderings; the nil interface value is `none`.
* A Go map is the list of its entries, in the order in which `range` yields
  them on that run.
-/

namespace Ulog

/-! ## Values and `fmt.Sprintf` -/

/-- A non-nil Go value as `fmt` observes it: the name of its dynamic type, its
rendering under `%v`, and its rendering under `%s` and `%d` where this
development describes it (`none` where it does not). -/
structure Value where
  typeName : String
  v : String
  verb : Char → Option String

/-- An `interface{}` operand: `none` is the nil interface value. -/
abbrev Arg := Option Value

/-- The standard-library functions the package calls and this development
leaves open: `time.Duration.String`, `json.MarshalIndent(v, "", "\t")` (`none`
when it returns an error), and `fmt.Sprintf` on the calls that `doPrintf` does
not describe. -/
structure Lib where
  durationString : Int → String
  marshalIndent : Arg → Option String
  sprintf : String → List Arg → String

/-- A Go `string` operand: `%v` and `%s` print the text. -/
def Value.ofString (s : String) : Value :=
  ⟨"string", s, fun c => if c = 's' then some s else none⟩

/-- A Go `int` operand: `%v` and `%d` print the decimal numeral. -/
def Value.ofInt (n : Int) : Value :=
  ⟨"int", toString n, fun c => if c = 'd' then some (toString n) else none⟩

/-- A Go `[]byte` operand holding the bytes of `s`: `%s` prints the text,
`%v` the decimal bytes between brackets. -/
def Value.ofBytes (s : String) : Value :=
  ⟨"[]uint8", "[" ++ " ".intercalate (s.toUTF8.toList.map fun b => toString b.toNat) ++ "]",
    fun c => if c = 's' then some s else none⟩

/-- A `time.Duration` operand of `ns` nanoseconds; `str` is `Duration.String`,
which `%v` and `%s` call, while `%d` prints the number of nanoseconds. -/
def Value.ofDuration (str : Int → String) (ns : Int) : Value :=
  ⟨"time.Duration", str ns,
    fun c => if c = 's' then some (str ns) else if c = 'd' then some (toString ns) else none⟩

/-- The rendering of one operand under the verb `c`, one of `v`, `s`, `d`:
the nil operand prints `<nil>` under `%v` and the marker `%!c(<nil>)` under the
other two; a value prints its rendering, and `none` is returned when that
rendering is not described. -/
def printArg (a : Arg) (c : Char) : Option (List Char) :=
  match a with
  | none => if c = 'v' then some "<nil>".data else some (['%', '!', c] ++ "(<nil>)".data)
  | some x => if c = 'v' then some x.v.data else (x.verb c).map String.data

/-- The text of one operand inside the `%!(EXTRA ...)` marker. -/
def extraArg : Arg → String
  | none => "<nil>"
  | some x => x.typeName ++ "=" ++ x.v

/-- The marker appended when operands are left over at the end of the format. -/
def extraArgs : List Arg → List Char
  | [] => []
  | a :: as => ("%!(EXTRA " ++ ", ".intercalate ((a :: as).map extraArg) ++ ")").data

/-- The scanning loop of `fmt.Sprintf` over the characters of the format, for
text, `%%` and the verbs `%v`, `%s`, `%d`; `none` as soon as the format or an
operand leaves that ground. -/
def doPrintf : List Char → List Arg → Option (List Char)
  | [], as => some (extraArgs as)
  | [c], as => if c = '%' then some ("%!(NOVERB)".data ++ extraArgs as) else some (c :: extraArgs as)
  | c :: c2 :: fs, as =>
    if c = '%' then
      if c2 = '%' then (doPrintf fs as).map fun out => '%' :: out
      else if c2 = 'v' ∨ c2 = 's' ∨ c2 = 'd' then
        match as with
        | [] => (doPrintf fs []).map fun out => ['%', '!', c2] ++ "(MISSING)".data ++ out
        | a :: rest =>
          match printArg a c2, doPrintf fs rest with
          | some x, some out => some (x ++ out)
          | _, _ => none
      else none
    else (doPrintf (c2 :: fs) as).map fun out => c :: out

/-- Go's `fmt.Sprintf(format, a...)`: the text `doPrintf` computes where it
describes the call, and the library's own result everywhere else. -/
def Sprintf (lib : Lib) (format : String) (a : List Arg) : String :=
  match doPrintf format.data a with
  | some out => ⟨out⟩
  | none => lib.sprintf format a

/-! ## The package state -/

/-- The seven switches of the package variable `OutputConfig`. -/
structure OutputConfig where
  ShowStarts : Bool
  ShowDones : Bool
  ShowInfos : Bool
  ShowWarns : Bool
  ShowErrors : Bool
  ShowDetails : Bool
  ShowDebug : Bool
  deriving DecidableEq, Repr

/-- The initial value of `OutputConfig`: every switch on. -/
def OutputConfig.initial : OutputConfig :=
  ⟨true, true, true, true, true, true, true⟩

/-- The style variables: five labels and four style functions. -/
structure Styles where
  LInfo : String
  LWarn : String
  LErr : String
  LStart : String
  LDone : String
  STime : String → String
  SFail : String → String
  SKey : String → String
  SVal : String → String

/-- A `*log.Logger`, by identity. -/
abbrev Logger := Nat

/-- The fields of `Stat`. -/
structure Stat where
  Logger : Logger
  BeginTime : Int
  Caller : String
  Context : String
  dmode : Bool
  deriving DecidableEq, Repr

/-- One call of `Logger.Output(calldepth, msg)` as the sink receives it. -/
structure Record where
  logger : Logger
  calldepth : Nat
  msg : String
  deriving DecidableEq, Repr

/-- A `*Stat`. -/
abbrev Ptr := Nat

/-- The package variables together with the environment. -/
structure World where
  config : OutputConfig
  styles : Styles
  DefaultLogger : Logger
  lib : Lib
  clock : Int
  heap : List Stat
  out : List Record

/-- Dereference of a `*Stat`; `none` for the nil pointer. -/
def World.deref (w : World) (p : Ptr) : Option Stat :=
  w.heap.get? p

/-- Allocation of `&Stat{...}`: a fresh address holding `s`. -/
def World.alloc (w : World) (s : Stat) : Ptr × World :=
  (w.heap.length, { w with heap := w.heap ++ [s] })

/-- The call `l.Output(calldepth, msg)`: the sink receives one more record. -/
def World.Output (w : World) (l : Logger) (calldepth : Nat) (msg : String) : World :=
  { w with out := w.out ++ [⟨l, calldepth, msg⟩] }

/-- The labels and style functions after `RemoveFormat`; `ansi.ColorFunc("")`
is the identity. -/
def Styles.plain : Styles :=
  ⟨"info", "warn", "error", "start", "done", id, id, id, id⟩

/-- RemoveFormat removes the current format. -/
def RemoveFormat (w : World) : World :=
  { w with styles := Styles.plain }

/-! ## The call stack -/

/-- One frame of the call stack: the function's name as `runtime.FuncForPC`
reports it, and the file and line the frame is executing. -/
structure Frame where
  fn : String
  file : String
  line : Nat
  deriving DecidableEq, Repr

/-- The call stack, innermost frame first. -/
abbrev Stack := List Frame

/-- The frame `runtime.Caller(skip)` reports when called with stack `st`
(`skip = 0` is the function calling `runtime.Caller`). -/
def runtimeCaller (st : Stack) (skip : Nat) : Option Frame :=
  st.get? skip

/-- The frame of a function of this package, stopped at `line` of `ulog.go`. -/
def pkgFrame (fn : String) (line : Nat) : Frame :=
  ⟨"ulog." ++ fn, "ulog/ulog.go", line⟩

/-- The name of the function `d` frames above the caller of `funcName`; the
empty string when there is no such frame (`(*Func)(nil).Name()`). -/
def funcName (st : Stack) (d : Nat) : String :=
  match runtimeCaller (pkgFrame "funcName" 71 :: st) (d + 1) with
  | some f => f.fn
  | none => ""

/-- The character index of the last `c` in `cs` counted from `i`, or `acc`. -/
def lastIndexAux (c : Char) : List Char → Nat → Int → Int
  | [], _, acc => acc
  | x :: xs, i, acc => lastIndexAux c xs (i + 1) (if x = c then (i : Int) else acc)

/-- The result of `strings.LastIndex(s, "/")`, `-1` when there is no slash.
The index counts characters; the tests `fileName` makes on it (`w > 0`,
`w < len(file)-1`) and the slice `file[w+1:]` come out the same as with byte
offsets, the slash being a single byte. -/
def lastSlash (s : String) : Int :=
  lastIndexAux '/' s.data 0 (-1)

/-- The directory trimming of `fileName`:
`if w < len(file)-1 && w > 0 { file = file[w+1:] }`. -/
def trimDir (file : String) : String :=
  let w := lastSlash file
  if w < (file.data.length : Int) - 1 ∧ w > 0 then ⟨file.data.drop (w.toNat + 1)⟩ else file

/-- The file (directory trimmed) and line of the frame `d` above the caller of
`fileName`; `runtime.Caller` reports `"", 0` when there is no such frame. -/
def fileName (st : Stack) (d : Nat) : String × Nat :=
  match runtimeCaller (pkgFrame "fileName" 76 :: st) (d + 1) with
  | some f => (trimDir f.file, f.line)
  | none => (trimDir "", 0)

/-! ## Context rendering -/

/-- The type `C`, a `map[string]interface{}`, as the sequence of entries that
`range` yields. -/
abbrev C := List (String × Arg)

/-- The method `C.String`: one `key[value]` item per entry, joined by `", "`
after a single space. -/
def C_String (lib : Lib) (sty : Styles) (c : C) : String :=
  let res := c.map fun kv =>
    Sprintf lib ("%s[" ++ sty.SVal "%v" ++ "]") [some (Value.ofString (sty.SKey kv.1)), kv.2]
  " " ++ ", ".intercalate res

/-! ## The handle and its operations -/

/-- The method `logfmt`, called with stack `st` on the handle value `s`. -/
def Stat.logfmt (w : World) (st : Stack) (s : Stat) (d : Nat) (level format : String)
    (v : List Arg) : World :=
  let fl := fileName (pkgFrame "(*Stat).logfmt" 110 :: st) (d + 1)
  if format = "" then
    w.Output s.Logger (d + 1)
      (Sprintf w.lib "%s:%d : %s %s%s"
        [some (Value.ofString fl.1), some (Value.ofInt fl.2), some (Value.ofString s.Caller),
          some (Value.ofString level), some (Value.ofString s.Context)])
  else
    let stuff := Sprintf w.lib format v
    w.Output s.Logger (d + 1)
      (Sprintf w.lib "%s:%d : %s %s%s: %s"
        [some (Value.ofString fl.1), some (Value.ofInt fl.2), some (Value.ofString s.Caller),
          some (Value.ofString level), some (Value.ofString s.Context),
          some (Value.ofString stuff)])

/-- New returns a new handle recording the start time and logging the start. -/
def New (w : World) (st : Stack) (ctx : Option C) : Ptr × World :=
  let s : Stat :=
    match ctx with
    | none => ⟨w.DefaultLogger, w.clock, funcName (pkgFrame "New" 125 :: st) 1, "", false⟩
    | some c =>
      ⟨w.DefaultLogger, w.clock, funcName (pkgFrame "New" 127 :: st) 1,
        C_String w.lib w.styles c, false⟩
  let pw := w.alloc s
  if (s.dmode && w.config.ShowDebug) || (!s.dmode && w.config.ShowStarts) then
    (pw.1, Stat.logfmt pw.2 (pkgFrame "New" 131 :: st) s 1 w.styles.LStart "" [])
  else pw

/-- NewDbg returns a new debug-mode handle and logs the start. -/
def NewDbg (w : World) (st : Stack) (ctx : Option C) : Ptr × World :=
  let s : Stat :=
    match ctx with
    | none => ⟨w.DefaultLogger, w.clock, funcName (pkgFrame "NewDbg" 142 :: st) 1, "", true⟩
    | some c =>
      ⟨w.DefaultLogger, w.clock, funcName (pkgFrame "NewDbg" 144 :: st) 1,
        C_String w.lib w.styles c, true⟩
  let pw := w.alloc s
  if (s.dmode && w.config.ShowDebug) || (!s.dmode && w.config.ShowStarts) then
    (pw.1, Stat.logfmt pw.2 (pkgFrame "NewDbg" 148 :: st) s 1 w.styles.LStart "" [])
  else pw

/-- I formats an info message. -/
def Stat.I (w : World) (st : Stack) (p : Ptr) (format : String) (v : List Arg) :
    Option World :=
  match w.deref p with
  | none => none
  | some s =>
    if (s.dmode && w.config.ShowDebug) || (!s.dmode && w.config.ShowInfos) then
      some (Stat.logfmt w (pkgFrame "(*Stat).I" 157 :: st) s 1 w.styles.LInfo format v)
    else some w

/-- W formats a warning message. -/
def Stat.W (w : World) (st : Stack) (p : Ptr) (format : String) (v : List Arg) :
    Option World :=
  match w.deref p with
  | none => none
  | some s =>
    if (s.dmode && w.config.ShowDebug) || (!s.dmode && w.config.ShowWarns) then
      some (Stat.logfmt w (pkgFrame "(*Stat).W" 164 :: st) s 1 w.styles.LWarn format v)
    else some w

/-- E formats an error message. -/
def Stat.E (w : World) (st : Stack) (p : Ptr) (format : String) (v : List Arg) :
    Option World :=
  match w.deref p with
  | none => none
  | some s =>
    if (s.dmode && w.config.ShowDebug) || (!s.dmode && w.config.ShowErrors) then
      some (Stat.logfmt w (pkgFrame "(*Stat).E" 171 :: st) s 1 w.styles.LErr format v)
    else some w

/-- ED formats an error message with depth.  The receiver is dereferenced only
inside the branch that logs. -/
def Stat.ED (w : World) (st : Stack) (p : Ptr) (d : Nat) (format : String) (v : List Arg) :
    Option World :=
  if w.config.ShowErrors then
    match w.deref p with
    | none => none
    | some s =>
      some (Stat.logfmt w (pkgFrame "(*Stat).ED" 178 :: st) s (d + 1) w.styles.LErr format v)
  else some w

/-- Sub returns a new handle with inherited properties. -/
def Stat.Sub (w : World) (st : Stack) (p : Ptr) (name : String) (ctx : Option C) :
    Option (Ptr × World) :=
  match w.deref p with
  | none => none
  | some s =>
    let n : Stat :=
      match ctx with
      | none =>
        ⟨w.DefaultLogger, w.clock,
          funcName (pkgFrame "(*Stat).Sub" 186 :: st) 1 ++ "(" ++ name ++ ")", "", s.dmode⟩
      | some c =>
        ⟨w.DefaultLogger, w.clock,
          funcName (pkgFrame "(*Stat).Sub" 188 :: st) 1 ++ "(" ++ name ++ ")",
          C_String w.lib w.styles c, s.dmode⟩
    let pw := w.alloc n
    if (s.dmode && w.config.ShowDebug) || (!s.dmode && w.config.ShowStarts) then
      some (pw.1, Stat.logfmt pw.2 (pkgFrame "(*Stat).Sub" 192 :: st) n 1 w.styles.LStart "" [])
    else some pw

/-- Detail prints an indented JSON rendering of `v` into the log.  A failed
serialization leaves the nil byte slice, which `%s` prints as nothing. -/
def Stat.Detail (w : World) (st : Stack) (p : Ptr) (level head : String) (v : Arg) :
    Option World :=
  match w.deref p with
  | none => none
  | some s =>
    if (s.dmode && w.config.ShowDebug) || (!s.dmode && w.config.ShowDetails) then
      let bytes : String := (w.lib.marshalIndent v).getD ""
      some (Stat.logfmt w (pkgFrame "(*Stat).Detail" 202 :: st) s 1 level "%s -> \n%s"
        [some (Value.ofString head), some (Value.ofBytes bytes)])
    else some w

/-- The loop of `Done` over its arguments: one `ED` call per non-nil one. -/
def Stat.doneLoop (st : Stack) (p : Ptr) : World → List Arg → Option World
  | w, [] => some w
  | w, none :: es => Stat.doneLoop st p w es
  | w, some e :: es =>
    match Stat.ED w (pkgFrame "(*Stat).Done" 211 :: st) p 1
        (w.styles.SFail "failure" ++ " : %v") [some e] with
    | none => none
    | some w1 => Stat.doneLoop st p w1 es

/-- Done outputs a done message. -/
def Stat.Done (w : World) (st : Stack) (p : Ptr) (errs : List Arg) : Option World :=
  match w.deref p with
  | none => none
  | some s =>
    if (s.dmode && w.config.ShowDebug) || (!s.dmode && w.config.ShowDones) then
      match Stat.doneLoop st p w errs with
      | none => none
      | some w1 =>
        some (Stat.logfmt w1 (pkgFrame "(*Stat).Done" 215 :: st) s 1 w1.styles.LDone
          ("time[" ++ w1.styles.STime "%s" ++ "]")
          [some (Value.ofDuration w1.lib.durationString (w1.clock - s.BeginTime))])
    else some w

/-! ## Concrete worlds for the examples -/

/-- A library for the examples: durations print as a number of nanoseconds,
serialization fails on a channel, and the formatting calls left to the library
give a fixed mark (no example reaches one). -/
def demoLib : Lib :=
  ⟨fun ns => toString ns ++ "ns",
    fun a =>
      match a with
      | none => some "null"
      | some x => if x.typeName = "chan int" then none else some x.v,
    fun _ _ => "?"⟩

/-- A world with plain styles, default logger 7, and two handles made earlier
on logger 5: a normal one at address 0 and a debug-mode one at address 1. -/
def demoWorld (cfg : OutputConfig) : World :=
  ⟨cfg, Styles.plain, 7, demoLib, 100,
    [⟨5, 40, "main", "", false⟩, ⟨5, 60, "main", " k[v]", true⟩], []⟩

/-- A call made from line 12 of `helper`, itself called from `main`. -/
def demoStack : Stack :=
  [⟨"helper", "/src/app/helper.go", 12⟩, ⟨"main", "/src/app/main.go", 30⟩]

/-- A world with no handle yet. -/
def freshWorld (cfg : OutputConfig) : World :=
  ⟨cfg, Styles.plain, 7, demoLib, 100, [], []⟩

/-! ## Specification-side definitions -/

/-- The source location reported for frame `k` of the caller's stack: file
without its directory, and line. -/
def site (st : Stack) (k : Nat) : String × Nat :=
  match st.get? k with
  | some f => (trimDir f.file, f.line)
  | none => ("", 0)

/-- The line layout of the specification:
`<file>:<line> : <caller> <label><context>`, followed by `: <payload>` when a
payload is supplied. -/
def specLine (loc : String × Nat) (caller label ctx : String) : Option String → String
  | none => loc.1 ++ ":" ++ toString loc.2 ++ " : " ++ caller ++ " " ++ label ++ ctx
  | some body =>
    loc.1 ++ ":" ++ toString loc.2 ++ " : " ++ caller ++ " " ++ label ++ ctx ++ ": " ++ body

/-- The payload of a call with format `format`: none for the empty format. -/
def payloadOf (lib : Lib) (format : String) (v : List Arg) : Option String :=
  if format = "" then none else some (Sprintf lib format v)

/-- The line of the specification written out: the text before the payload
alone when the format is empty, and that text, `": "` and the rendering of the
format with its arguments otherwise. -/
def lineText (lib : Lib) (loc : String × Nat) (caller label ctx format : String)
    (v : List Arg) : String :=
  if format = "" then
    loc.1 ++ ":" ++ toString loc.2 ++ " : " ++ caller ++ " " ++ label ++ ctx
  else
    loc.1 ++ ":" ++ toString loc.2 ++ " : " ++ caller ++ " " ++ label ++ ctx ++ ": " ++
      Sprintf lib format v

/-- The gating rule of the specification: a debug-mode handle follows the
Debug flag alone, any other handle follows its category flag `f`. -/
def gate (cfg : OutputConfig) (dmode : Bool) (f : Bool) : Bool :=
  (dmode && cfg.ShowDebug) || (!dmode && f)

/-- The failure line `Done` reports for the non-nil argument `e`. -/
def failureRecord (w : World) (st : Stack) (s : Stat) (e : Value) : Record :=
  ⟨s.Logger, 3, specLine (site st 0) s.Caller w.styles.LErr s.Context
    (some (Sprintf w.lib (w.styles.SFail "failure" ++ " : %v") [some e]))⟩

/-- The elapsed-time line of `Done`. -/
def timeRecord (w : World) (st : Stack) (s : Stat) : Record :=
  ⟨s.Logger, 2, specLine (site st 0) s.Caller w.styles.LDone s.Context
    (some (Sprintf w.lib ("time[" ++ w.styles.STime "%s" ++ "]")
      [some (Value.ofDuration w.lib.durationString (w.clock - s.BeginTime))]))⟩

/-- The name of the function that makes the call, read off its stack. -/
def callerOf (st : Stack) : String :=
  match st.get? 0 with
  | some f => f.fn
  | none => ""

/-- The handle value a constructor builds: the current default logger, the
current time, the given caller name, the rendered context (empty for a nil
map) and the given debug mode. -/
def newStat (w : World) (caller : String) (ctx : Option C) (dmode : Bool) : Stat :=
  ⟨w.DefaultLogger, w.clock, caller,
    match ctx with
    | none => ""
    | some c => C_String w.lib w.styles c,
    dmode⟩

/-- The start line of the handle value `n`. -/
def startRecord (w : World) (st : Stack) (n : Stat) : Record :=
  ⟨n.Logger, 2, specLine (site st 0) n.Caller w.styles.LStart n.Context none⟩

/-- The text of a context value: its `%v` rendering. -/
def valueText : Arg → String
  | none => "<nil>"
  | some x => x.v

/-- The text of one context entry in the specification: `key[value]`. -/
def entryText (kv : String × Arg) : String :=
  kv.1 ++ "[" ++ valueText kv.2 ++ "]"

/-! ## Lemmas on the rendering and on each operation -/

theorem toString_natCast (n : Nat) : toString (n : Int) = toString n := rfl

theorem Sprintf_base (lib : Lib) (f c l x : String) (n : Nat) :
    Sprintf lib "%s:%d : %s %s%s"
      [some (Value.ofString f), some (Value.ofInt n), some (Value.ofString c),
        some (Value.ofString l), some (Value.ofString x)]
      = f ++ ":" ++ toString n ++ " : " ++ c ++ " " ++ l ++ x := by
  apply String.ext
  simp [Sprintf, doPrintf, printArg, Value.ofString, Value.ofInt, extraArgs, toString_natCast]

theorem Sprintf_payload (lib : Lib) (f c l x stuff : String) (n : Nat) :
    Sprintf lib "%s:%d : %s %s%s: %s"
      [some (Value.ofString f), some (Value.ofInt n), some (Value.ofString c),
        some (Value.ofString l), some (Value.ofString x), some (Value.ofString stuff)]
      = f ++ ":" ++ toString n ++ " : " ++ c ++ " " ++ l ++ x ++ ": " ++ stuff := by
  apply String.ext
  simp [Sprintf, doPrintf, printArg, Value.ofString, Value.ofInt, extraArgs, toString_natCast]

theorem Sprintf_detail (lib : Lib) (h b : String) :
    Sprintf lib "%s -> \n%s" [some (Value.ofString h), some (Value.ofBytes b)]
      = h ++ " -> \n" ++ b := by
  apply String.ext
  simp [Sprintf, doPrintf, printArg, Value.ofString, Value.ofBytes, extraArgs]

theorem Sprintf_entry (lib : Lib) (k : String) (a : Arg) :
    Sprintf lib "%s[%v]" [some (Value.ofString k), a] = k ++ "[" ++ valueText a ++ "]" := by
  apply String.ext
  cases a <;>
    simp [Sprintf, doPrintf, printArg, Value.ofString, extraArgs, valueText]

theorem trimDir_empty : trimDir "" = "" := by decide

theorem fileName_site (f1 f2 : Frame) (st : Stack) (d : Nat) :
    fileName (f1 :: f2 :: st) (d + 2) = site st d := by
  simp [fileName, runtimeCaller, site, trimDir_empty]

theorem logfmt_eq (w : World) (fr : Frame) (st : Stack) (s : Stat) (d : Nat)
    (level format : String) (v : List Arg) :
    Stat.logfmt w (fr :: st) s (d + 1) level format v
      = w.Output s.Logger (d + 2)
          (specLine (site st d) s.Caller level s.Context (payloadOf w.lib format v)) := by
  unfold Stat.logfmt
  simp only [fileName_site]
  by_cases hf : format = ""
  · simp [hf, payloadOf, specLine, Sprintf_base]
  · simp [hf, payloadOf, specLine, Sprintf_payload]


theorem specLine_payloadOf (lib : Lib) (loc : String × Nat) (caller label ctx format : String)
    (v : List Arg) :
    specLine loc caller label ctx (payloadOf lib format v)
      = lineText lib loc caller label ctx format v := by
  by_cases hf : format = "" <;> simp [hf, payloadOf, specLine, lineText]

theorem append_ne_empty_right (a b : String) (hb : b ≠ "") : a ++ b ≠ "" := by
  intro h
  have h1 := congrArg String.data h
  simp only [String.data_append, List.append_eq_nil] at h1
  exact hb (String.ext h1.2)

theorem payloadOf_failure (lib : Lib) (x : String) (v : List Arg) :
    payloadOf lib (x ++ " : %v") v = some (Sprintf lib (x ++ " : %v") v) := by
  simp [payloadOf, append_ne_empty_right x " : %v" (by decide)]

theorem payloadOf_time (lib : Lib) (x : String) (v : List Arg) :
    payloadOf lib ("time[" ++ x ++ "]") v = some (Sprintf lib ("time[" ++ x ++ "]") v) := by
  simp [payloadOf, append_ne_empty_right ("time[" ++ x) "]" (by decide)]

theorem deref_alloc_new (w : World) (s : Stat) :
    (w.alloc s).2.deref (w.alloc s).1 = some s := by
  simp [World.alloc, World.deref]

theorem deref_alloc_old (w : World) (s x : Stat) (p : Ptr) (h : w.deref p = some x) :
    (w.alloc s).2.deref p = some x := by
  simp only [World.alloc, World.deref] at *
  have hp : p < w.heap.length := by
    by_contra hc
    have hle : w.heap.length ≤ p := Nat.le_of_not_lt hc
    rw [List.get?_eq_none.mpr hle] at h
    exact absurd h (by simp)
  rw [List.get?_eq_getElem?, List.getElem?_append_left hp, ← List.get?_eq_getElem?]
  exact h

theorem I_eq (w : World) (st : Stack) (p : Ptr) (s : Stat) (h : w.deref p = some s)
    (format : String) (v : List Arg) :
    Stat.I w st p format v
      = some (if gate w.config s.dmode w.config.ShowInfos then
          w.Output s.Logger 2
            (specLine (site st 0) s.Caller w.styles.LInfo s.Context (payloadOf w.lib format v))
        else w) := by
  simp only [Stat.I, h, logfmt_eq, gate]
  split <;> rfl

theorem W_eq (w : World) (st : Stack) (p : Ptr) (s : Stat) (h : w.deref p = some s)
    (format : String) (v : List Arg) :
    Stat.W w st p format v
      = some (if gate w.config s.dmode w.config.ShowWarns then
          w.Output s.Logger 2
            (specLine (site st 0) s.Caller w.styles.LWarn s.Context (payloadOf w.lib format v))
        else w) := by
  simp only [Stat.W, h, logfmt_eq, gate]
  split <;> rfl

theorem E_eq (w : World) (st : Stack) (p : Ptr) (s : Stat) (h : w.deref p = some s)
    (format : String) (v : List Arg) :
    Stat.E w st p format v
      = some (if gate w.config s.dmode w.config.ShowErrors then
          w.Output s.Logger 2
            (specLine (site st 0) s.Caller w.styles.LErr s.Context (payloadOf w.lib format v))
        else w) := by
  simp only [Stat.E, h, logfmt_eq, gate]
  split <;> rfl

theorem ED_eq (w : World) (st : Stack) (p : Ptr) (s : Stat) (h : w.deref p = some s)
    (d : Nat) (format : String) (v : List Arg) :
    Stat.ED w st p d format v
      = some (if w.config.ShowErrors then
          w.Output s.Logger (d + 2)
            (specLine (site st d) s.Caller w.styles.LErr s.Context (payloadOf w.lib format v))
        else w) := by
  simp only [Stat.ED, h, logfmt_eq]
  split <;> rfl

theorem Detail_eq (w : World) (st : Stack) (p : Ptr) (s : Stat) (h : w.deref p = some s)
    (level head : String) (x : Arg) :
    Stat.Detail w st p level head x
      = some (if gate w.config s.dmode w.config.ShowDetails then
          w.Output s.Logger 2
            (specLine (site st 0) s.Caller level s.Context
              (some (head ++ " -> \n" ++ (w.lib.marshalIndent x).getD "")))
        else w) := by
  have hp : ∀ a : List Arg,
      payloadOf w.lib "%s -> \n%s" a = some (Sprintf w.lib "%s -> \n%s" a) := by
    intro a
    simp [payloadOf]
  simp only [Stat.Detail, h, logfmt_eq, gate, hp, Sprintf_detail]
  split <;> rfl

theorem site_cons (f : Frame) (st : Stack) (d : Nat) : site (f :: st) (d + 1) = site st d := by
  simp [site]

theorem doneLoop_eq (st : Stack) (p : Ptr) (s : Stat) (errs : List Arg) :
    ∀ w : World, w.deref p = some s →
      Stat.doneLoop st p w errs
        = some { w with out := w.out ++
            if w.config.ShowErrors then (errs.filterMap id).map (failureRecord w st s)
            else [] } := by
  induction errs with
  | nil => intro w _; simp [Stat.doneLoop]
  | cons a es ih =>
    intro w h
    cases a with
    | none => simpa [Stat.doneLoop] using ih w h
    | some e =>
      simp only [Stat.doneLoop, ED_eq w _ p s h, site_cons, payloadOf_failure]
      have h1 : (w.Output s.Logger 3 (specLine (site st 0) s.Caller w.styles.LErr s.Context
          (some (Sprintf w.lib (w.styles.SFail "failure" ++ " : %v") [some e])))).deref p
          = some s := h
      cases hE : w.config.ShowErrors with
      | false =>
        simp only [Bool.false_eq_true, if_false]
        rw [ih w h]
        simp [hE]
      | true =>
        simp only [if_true]
        rw [ih _ h1]
        simp [World.Output, failureRecord, hE]

theorem Done_eq (w : World) (st : Stack) (p : Ptr) (s : Stat) (h : w.deref p = some s)
    (errs : List Arg) :
    Stat.Done w st p errs
      = some (if gate w.config s.dmode w.config.ShowDones then
          { w with out := w.out ++
              (if w.config.ShowErrors then (errs.filterMap id).map (failureRecord w st s)
                else []) ++ [timeRecord w st s] }
        else w) := by
  simp only [Stat.Done, h, doneLoop_eq st p s errs w h, logfmt_eq, gate, payloadOf_time]
  split
  · simp [World.Output, timeRecord]
  · rfl


theorem funcName_cons (f : Frame) (st : Stack) : funcName (f :: st) 1 = callerOf st := by
  simp [funcName, runtimeCaller, callerOf]

theorem New_eq (w : World) (st : Stack) (ctx : Option C) :
    New w st ctx
      = (w.heap.length,
          { w with
            heap := w.heap ++ [newStat w (callerOf st) ctx false]
            out := w.out ++
              if w.config.ShowStarts then [startRecord w st (newStat w (callerOf st) ctx false)]
              else [] }) := by
  cases ctx <;> cases hS : w.config.ShowStarts <;>
    simp [New, funcName_cons, logfmt_eq, payloadOf, World.alloc, World.Output, newStat,
      startRecord, hS]

theorem NewDbg_eq (w : World) (st : Stack) (ctx : Option C) :
    NewDbg w st ctx
      = (w.heap.length,
          { w with
            heap := w.heap ++ [newStat w (callerOf st) ctx true]
            out := w.out ++
              if w.config.ShowDebug then [startRecord w st (newStat w (callerOf st) ctx true)]
              else [] }) := by
  cases ctx <;> cases hS : w.config.ShowDebug <;>
    simp [NewDbg, funcName_cons, logfmt_eq, payloadOf, World.alloc, World.Output, newStat,
      startRecord, hS]

theorem Sub_eq (w : World) (st : Stack) (p : Ptr) (s : Stat) (h : w.deref p = some s)
    (name : String) (ctx : Option C) :
    Stat.Sub w st p name ctx
      = some (w.heap.length,
          { w with
            heap := w.heap ++ [newStat w (callerOf st ++ "(" ++ name ++ ")") ctx s.dmode]
            out := w.out ++
              if gate w.config s.dmode w.config.ShowStarts then
                [startRecord w st (newStat w (callerOf st ++ "(" ++ name ++ ")") ctx s.dmode)]
              else [] }) := by
  cases ctx <;> cases hg : gate w.config s.dmode w.config.ShowStarts <;>
    simp only [gate] at hg <;>
    simp [Stat.Sub, h, funcName_cons, logfmt_eq, payloadOf, World.alloc, World.Output, newStat,
      startRecord, hg]

theorem deref_last (w : World) (n : Stat) (o : List Record) :
    ({ w with heap := w.heap ++ [n], out := o } : World).deref w.heap.length = some n := by
  simp [World.deref]

theorem deref_kept (w : World) (n s : Stat) (o : List Record) (p : Ptr)
    (h : w.deref p = some s) :
    ({ w with heap := w.heap ++ [n], out := o } : World).deref p = some s :=
  deref_alloc_old w n s p h

/-! ## The claims -/

/-- C1. Every emitting operation writes its line exactly when the gate
`(dmode AND ShowDebug) OR (NOT dmode AND F)` holds, `F` being the category flag
of the operation, and writes nothing otherwise.  `New` and `NewDbg`, in every
world (the first call of the program too), gate the start line of the handle
they create, a normal one and a debug-mode one, on `ShowStarts`; on every
handle `s`, `Sub` gates the start line on `ShowStarts` (the child has the mode
of `s`), `I` on `ShowInfos`, `W` on `ShowWarns`, `E` on `ShowErrors`, `Detail`
on `ShowDetails`, and `Done` its elapsed-time line on `ShowDones`. -/
theorem C1_gate_decides_each_line (w : World) (st : Stack) (ctx : Option C)
    (name format level head : String) (v : List Arg) (x : Arg) (errs : List Arg) :
    (∃ n, (New w st ctx).2.deref (New w st ctx).1 = some n ∧ n.dmode = false ∧
      (New w st ctx).2.out
        = if gate w.config n.dmode w.config.ShowStarts then w.out ++ [startRecord w st n]
          else w.out) ∧
    (∃ n, (NewDbg w st ctx).2.deref (NewDbg w st ctx).1 = some n ∧ n.dmode = true ∧
      (NewDbg w st ctx).2.out
        = if gate w.config n.dmode w.config.ShowStarts then w.out ++ [startRecord w st n]
          else w.out) ∧
    ∀ (p : Ptr) (s : Stat), w.deref p = some s →
      (∃ q w1 n, Stat.Sub w st p name ctx = some (q, w1) ∧ w1.deref q = some n ∧
        n.dmode = s.dmode ∧
        w1.out
          = if gate w.config s.dmode w.config.ShowStarts then w.out ++ [startRecord w st n]
            else w.out) ∧
      (∃ w1, Stat.I w st p format v = some w1 ∧
        w1.out
          = if gate w.config s.dmode w.config.ShowInfos then
              w.out ++ [⟨s.Logger, 2,
                specLine (site st 0) s.Caller w.styles.LInfo s.Context
                  (payloadOf w.lib format v)⟩]
            else w.out) ∧
      (∃ w1, Stat.W w st p format v = some w1 ∧
        w1.out
          = if gate w.config s.dmode w.config.ShowWarns then
              w.out ++ [⟨s.Logger, 2,
                specLine (site st 0) s.Caller w.styles.LWarn s.Context
                  (payloadOf w.lib format v)⟩]
            else w.out) ∧
      (∃ w1, Stat.E w st p format v = some w1 ∧
        w1.out
          = if gate w.config s.dmode w.config.ShowErrors then
              w.out ++ [⟨s.Logger, 2,
                specLine (site st 0) s.Caller w.styles.LErr s.Context
                  (payloadOf w.lib format v)⟩]
            else w.out) ∧
      (∃ w1, Stat.Detail w st p level head x = some w1 ∧
        w1.out
          = if gate w.config s.dmode w.config.ShowDetails then
              w.out ++ [⟨s.Logger, 2,
                specLine (site st 0) s.Caller level s.Context
                  (some (head ++ " -> \n" ++ (w.lib.marshalIndent x).getD ""))⟩]
            else w.out) ∧
      (∃ w1, Stat.Done w st p errs = some w1 ∧
        if gate w.config s.dmode w.config.ShowDones then
          ∃ failures, w1.out = w.out ++ failures ++ [timeRecord w st s] ∧
            ∀ r ∈ failures, ∃ e, r = failureRecord w st s e
        else w1.out = w.out) := by
  refine ⟨?_, ?_, ?_⟩
  · refine ⟨newStat w (callerOf st) ctx false, ?_, rfl, ?_⟩
    · rw [New_eq]; exact deref_last _ _ _
    · rw [New_eq]
      cases hS : w.config.ShowStarts <;> simp [gate, newStat, hS]
  · refine ⟨newStat w (callerOf st) ctx true, ?_, rfl, ?_⟩
    · rw [NewDbg_eq]; exact deref_last _ _ _
    · rw [NewDbg_eq]
      cases hS : w.config.ShowDebug <;> simp [gate, newStat, hS]
  · intro p s h
    refine ⟨?_, ?_, ?_, ?_, ?_, ?_⟩
    · refine ⟨_, _, _, Sub_eq w st p s h name ctx, deref_last _ _ _, rfl, ?_⟩
      cases hg : gate w.config s.dmode w.config.ShowStarts <;> simp
    · refine ⟨_, I_eq w st p s h format v, ?_⟩
      cases hg : gate w.config s.dmode w.config.ShowInfos <;> simp [World.Output]
    · refine ⟨_, W_eq w st p s h format v, ?_⟩
      cases hg : gate w.config s.dmode w.config.ShowWarns <;> simp [World.Output]
    · refine ⟨_, E_eq w st p s h format v, ?_⟩
      cases hg : gate w.config s.dmode w.config.ShowErrors <;> simp [World.Output]
    · refine ⟨_, Detail_eq w st p s h level head x, ?_⟩
      cases hg : gate w.config s.dmode w.config.ShowDetails <;> simp [World.Output]
    · refine ⟨_, Done_eq w st p s h errs, ?_⟩
      cases hg : gate w.config s.dmode w.config.ShowDones
      · simp
      · simp only [if_true]
        refine ⟨_, rfl, ?_⟩
        intro r hr
        cases hE : w.config.ShowErrors
        · simp [hE] at hr
        · simp only [hE, if_true, List.mem_map] at hr
          obtain ⟨e, _, he⟩ := hr
          exact ⟨e, he.symm⟩

/-- Witness of C1: the normal handle of the example world, all switches on. -/
theorem C1_gate_decides_each_line_witness :
    (demoWorld OutputConfig.initial).deref 0 = some ⟨5, 40, "main", "", false⟩ ∧
    ∃ w1, Stat.I (demoWorld OutputConfig.initial) demoStack 0 "hello %s"
        [some (Value.ofString "x")] = some w1 ∧
      w1.out
        = if gate (demoWorld OutputConfig.initial).config
              (⟨5, 40, "main", "", false⟩ : Stat).dmode
              (demoWorld OutputConfig.initial).config.ShowInfos then
            (demoWorld OutputConfig.initial).out ++ [⟨(⟨5, 40, "main", "", false⟩ : Stat).Logger, 2,
              specLine (site demoStack 0) (⟨5, 40, "main", "", false⟩ : Stat).Caller
                (demoWorld OutputConfig.initial).styles.LInfo
                (⟨5, 40, "main", "", false⟩ : Stat).Context
                (payloadOf (demoWorld OutputConfig.initial).lib "hello %s"
                  [some (Value.ofString "x")])⟩]
          else (demoWorld OutputConfig.initial).out :=
  ⟨rfl, ((C1_gate_decides_each_line (demoWorld OutputConfig.initial) demoStack none ""
    "hello %s" "" "" [some (Value.ofString "x")] none []).2.2 0
    ⟨5, 40, "main", "", false⟩ rfl).2.1⟩

/-- C2, as stated, fails: a handle made by `NewDbg` with `ShowDebug` off and
`ShowErrors` on still writes through `ED`. -/
theorem C2_counterexample :
    (⟨true, true, true, true, true, true, false⟩ : OutputConfig).ShowDebug = false ∧
    ((NewDbg (freshWorld ⟨true, true, true, true, true, true, false⟩) demoStack none).2.deref
        (NewDbg (freshWorld ⟨true, true, true, true, true, true, false⟩) demoStack none).1).map
      Stat.dmode = some true ∧
    (NewDbg (freshWorld ⟨true, true, true, true, true, true, false⟩) demoStack none).2.out = [] ∧
    (Stat.ED (NewDbg (freshWorld ⟨true, true, true, true, true, true, false⟩) demoStack none).2
        demoStack
        (NewDbg (freshWorld ⟨true, true, true, true, true, true, false⟩) demoStack none).1
        0 "boom" []).map World.out
      = some [⟨7, 2, "helper.go:12 : helper error: boom"⟩] := by
  refine ⟨rfl, ?_, ?_, ?_⟩ <;> decide

/-- C2, amended. On a debug-mode handle (one made by `NewDbg`, or by `Sub` of a
debug-mode handle) with `ShowDebug` off, none of `I`, `W`, `E`, `Detail`, `Sub`
and `Done` writes a line, whatever the other six switches; `ED` follows
`ShowErrors` alone and so is silent exactly when `ShowErrors` is off. -/
theorem C2_debug_handle_silent_but_ED (w : World) (st : Stack) (p : Ptr) (s : Stat)
    (h : w.deref p = some s) (hd : s.dmode = true) (hdbg : w.config.ShowDebug = false)
    (ctx : Option C) (name format level head : String) (v : List Arg) (x : Arg)
    (errs : List Arg) (d : Nat) :
    (∃ n, (NewDbg w st ctx).2.deref (NewDbg w st ctx).1 = some n ∧ n.dmode = true ∧
      (NewDbg w st ctx).2.out = w.out) ∧
    (∃ q w1 n, Stat.Sub w st p name ctx = some (q, w1) ∧ w1.deref q = some n ∧
      n.dmode = true ∧ w1.out = w.out) ∧
    Stat.I w st p format v = some w ∧
    Stat.W w st p format v = some w ∧
    Stat.E w st p format v = some w ∧
    Stat.Detail w st p level head x = some w ∧
    Stat.Done w st p errs = some w ∧
    (∃ w1, Stat.ED w st p d format v = some w1 ∧
      w1.out
        = if w.config.ShowErrors then
            w.out ++ [⟨s.Logger, d + 2,
              specLine (site st d) s.Caller w.styles.LErr s.Context (payloadOf w.lib format v)⟩]
          else w.out) := by
  have hg : ∀ f, gate w.config s.dmode f = false := by
    intro f
    simp [gate, hd, hdbg]
  refine ⟨?_, ?_, ?_, ?_, ?_, ?_, ?_, ?_⟩
  · refine ⟨newStat w (callerOf st) ctx true, ?_, rfl, ?_⟩
    · rw [NewDbg_eq]; exact deref_last _ _ _
    · rw [NewDbg_eq]; simp [hdbg]
  · refine ⟨_, _, _, Sub_eq w st p s h name ctx, deref_last _ _ _, ?_, ?_⟩
    · simp [newStat, hd]
    · simp [hg]
  · rw [I_eq w st p s h, hg]; rfl
  · rw [W_eq w st p s h, hg]; rfl
  · rw [E_eq w st p s h, hg]; rfl
  · rw [Detail_eq w st p s h, hg]; rfl
  · rw [Done_eq w st p s h, hg]; rfl
  · refine ⟨_, ED_eq w st p s h d format v, ?_⟩
    cases hE : w.config.ShowErrors <;> simp [World.Output]

/-- Witness of the amended C2: the debug-mode handle of the example world with
`ShowDebug` off and every other switch on. -/
theorem C2_debug_handle_silent_but_ED_witness :
    (demoWorld ⟨true, true, true, true, true, true, false⟩).deref 1
      = some ⟨5, 60, "main", " k[v]", true⟩ ∧
    (⟨5, 60, "main", " k[v]", true⟩ : Stat).dmode = true ∧
    (demoWorld ⟨true, true, true, true, true, true, false⟩).config.ShowDebug = false ∧
    Stat.E (demoWorld ⟨true, true, true, true, true, true, false⟩) demoStack 1 "boom" []
      = some (demoWorld ⟨true, true, true, true, true, true, false⟩) :=
  ⟨rfl, rfl, rfl,
    (C2_debug_handle_silent_but_ED (demoWorld ⟨true, true, true, true, true, true, false⟩)
      demoStack 1 ⟨5, 60, "main", " k[v]", true⟩ rfl rfl rfl none "" "boom" "" "" [] none []
      0).2.2.2.2.1⟩


/-- C3. With the Done gate open and `ShowErrors` on, `Done(errs)` returns and
writes first one failure line per non-nil element of `errs`, in argument order,
and last one elapsed-time line: `k + 1` lines for `k` non-nil elements.  One
non-nil error gives one failure line and then the elapsed-time line; a list of
nil arguments (the empty list too) gives only the elapsed-time line. -/
theorem C3_done_writes_failures_then_time (w : World) (st : Stack) (p : Ptr) (s : Stat)
    (h : w.deref p = some s) (hg : gate w.config s.dmode w.config.ShowDones = true)
    (hE : w.config.ShowErrors = true) (errs : List Arg) (e : Value) :
    (∃ w1, Stat.Done w st p errs = some w1 ∧
      w1.out = w.out ++ (errs.filterMap id).map (failureRecord w st s) ++ [timeRecord w st s] ∧
      w1.out.length = w.out.length + errs.countP (fun a => a.isSome) + 1) ∧
    (∃ w1, Stat.Done w st p [some e] = some w1 ∧
      w1.out = w.out ++ [failureRecord w st s e, timeRecord w st s]) ∧
    ((∀ a ∈ errs, a = none) →
      ∃ w1, Stat.Done w st p errs = some w1 ∧ w1.out = w.out ++ [timeRecord w st s]) := by
  have hlen : ∀ l : List Arg, (l.filterMap id).length = l.countP (fun a => a.isSome) := by
    intro l
    induction l with
    | nil => rfl
    | cons a l ih => cases a <;> simp [ih]
  refine ⟨⟨_, Done_eq w st p s h errs, ?_, ?_⟩, ⟨_, Done_eq w st p s h [some e], ?_⟩, ?_⟩
  · simp [hg, hE]
  · simp [hg, hE, hlen]
    omega
  · simp [hg, hE]
  · intro hall
    refine ⟨_, Done_eq w st p s h errs, ?_⟩
    have hnil : errs.filterMap id = [] := by
      rw [List.filterMap_eq_nil_iff]
      intro a ha
      rw [hall a ha]
      rfl
    simp [hg, hE, hnil]

/-- Witness of C3: the normal handle of the example world, all switches on,
called as `Done(nil, "boom")`. -/
theorem C3_done_writes_failures_then_time_witness :
    (demoWorld OutputConfig.initial).deref 0 = some ⟨5, 40, "main", "", false⟩ ∧
    gate (demoWorld OutputConfig.initial).config (⟨5, 40, "main", "", false⟩ : Stat).dmode
      (demoWorld OutputConfig.initial).config.ShowDones = true ∧
    (demoWorld OutputConfig.initial).config.ShowErrors = true ∧
    ∃ w1, Stat.Done (demoWorld OutputConfig.initial) demoStack 0
        [none, some (Value.ofString "boom")] = some w1 ∧
      w1.out = (demoWorld OutputConfig.initial).out ++
          ([none, some (Value.ofString "boom")].filterMap id).map
            (failureRecord (demoWorld OutputConfig.initial) demoStack
              ⟨5, 40, "main", "", false⟩) ++
          [timeRecord (demoWorld OutputConfig.initial) demoStack ⟨5, 40, "main", "", false⟩] ∧
      w1.out.length = (demoWorld OutputConfig.initial).out.length +
          [none, some (Value.ofString "boom")].countP (fun a => a.isSome) + 1 :=
  ⟨rfl, rfl, rfl,
    (C3_done_writes_failures_then_time (demoWorld OutputConfig.initial) demoStack 0
      ⟨5, 40, "main", "", false⟩ rfl rfl rfl [none, some (Value.ofString "boom")]
      (Value.ofString "boom")).1⟩

/-- C4, as stated, fails: on a normal handle with `ShowDones` off and
`ShowErrors` on, `Done(err)` with a non-nil `err` writes nothing. -/
theorem C4_counterexample :
    (demoWorld ⟨true, false, true, true, true, true, true⟩).config.ShowErrors = true ∧
    (demoWorld ⟨true, false, true, true, true, true, true⟩).config.ShowDones = false ∧
    ((demoWorld ⟨true, false, true, true, true, true, true⟩).deref 0).map Stat.dmode
      = some false ∧
    (Stat.Done (demoWorld ⟨true, false, true, true, true, true, true⟩) demoStack 0
        [some (Value.ofString "boom")]).map World.out
      = some (demoWorld ⟨true, false, true, true, true, true, true⟩).out ∧
    (demoWorld ⟨true, false, true, true, true, true, true⟩).out = [] := by
  refine ⟨rfl, rfl, ?_, ?_, rfl⟩ <;> decide

/-- C4, amended. With `ShowErrors` on, `Done(errs)` writes one failure line
for each non-nil element of `errs`, through `ED`, exactly when the Done gate of
the handle is open, and then the elapsed-time line; when the gate is closed it
writes nothing and leaves the world as it was. -/
theorem C4_failures_inside_done_gate (w : World) (st : Stack) (p : Ptr) (s : Stat)
    (h : w.deref p = some s) (hE : w.config.ShowErrors = true) (errs : List Arg) :
    (gate w.config s.dmode w.config.ShowDones = true →
      ∃ w1, Stat.Done w st p errs = some w1 ∧
        w1.out = w.out ++ (errs.filterMap id).map (failureRecord w st s)
          ++ [timeRecord w st s]) ∧
    (gate w.config s.dmode w.config.ShowDones = false → Stat.Done w st p errs = some w) ∧
    (∀ e : Value, ∃ w1,
      Stat.ED w (pkgFrame "(*Stat).Done" 211 :: st) p 1 (w.styles.SFail "failure" ++ " : %v")
          [some e] = some w1 ∧
        w1.out = w.out ++ [failureRecord w st s e]) := by
  refine ⟨?_, ?_, ?_⟩
  · intro hg
    exact ⟨_, Done_eq w st p s h errs, by simp [hg, hE]⟩
  · intro hg
    rw [Done_eq w st p s h, hg]
    rfl
  · intro e
    refine ⟨_, ED_eq w _ p s h 1 _ _, ?_⟩
    simp [hE, World.Output, failureRecord, site_cons, payloadOf_failure]

/-- Witness of the amended C4: the normal handle of the example world with
`ShowDones` off. -/
theorem C4_failures_inside_done_gate_witness :
    (demoWorld ⟨true, false, true, true, true, true, true⟩).deref 0
      = some ⟨5, 40, "main", "", false⟩ ∧
    (demoWorld ⟨true, false, true, true, true, true, true⟩).config.ShowErrors = true ∧
    Stat.Done (demoWorld ⟨true, false, true, true, true, true, true⟩) demoStack 0
        [some (Value.ofString "boom")]
      = some (demoWorld ⟨true, false, true, true, true, true, true⟩) :=
  ⟨rfl, rfl,
    (C4_failures_inside_done_gate (demoWorld ⟨true, false, true, true, true, true, true⟩)
      demoStack 0 ⟨5, 40, "main", "", false⟩ rfl rfl [some (Value.ofString "boom")]).2.1 rfl⟩

/-- C5, as stated, fails: `Sub("worker", nil)` called from the function
`helper` on a handle whose caller is `main` gives the caller `helper(worker)`. -/
theorem C5_counterexample :
    ((demoWorld OutputConfig.initial).deref 0).map Stat.Caller = some "main" ∧
    (Stat.Sub (demoWorld OutputConfig.initial) demoStack 0 "worker" none).map
        (fun r => (r.2.deref r.1).map Stat.Caller)
      = some (some "helper(worker)") ∧
    (Stat.Sub (demoWorld OutputConfig.initial) demoStack 0 "worker" none).map
        (fun r => (r.2.deref r.1).map Stat.Caller)
      ≠ some (some ("main" ++ "(" ++ "worker" ++ ")")) := by
  refine ⟨?_, ?_, ?_⟩ <;> decide

/-- C5, amended. The handle returned by `p.Sub(name, ctx)` has `Caller` equal
to the name of the function that calls `Sub`, followed by `"(" + name + ")"`;
this is `p.Caller` followed by `"(" + name + ")"` when that function is the one
`p.Caller` names. -/
theorem C5_sub_caller_is_calling_function (w : World) (st : Stack) (p : Ptr) (s : Stat)
    (h : w.deref p = some s) (name : String) (ctx : Option C) :
    ∃ q w1 n, Stat.Sub w st p name ctx = some (q, w1) ∧ w1.deref q = some n ∧
      n.Caller = callerOf st ++ "(" ++ name ++ ")" ∧
      (∀ fr rest, st = fr :: rest → n.Caller = fr.fn ++ "(" ++ name ++ ")") ∧
      (callerOf st = s.Caller → n.Caller = s.Caller ++ "(" ++ name ++ ")") := by
  refine ⟨_, _, _, Sub_eq w st p s h name ctx, deref_last _ _ _, rfl, ?_, ?_⟩
  · intro fr rest hst
    subst hst
    rfl
  · intro hc
    rw [← hc]
    rfl

/-- Witness of the amended C5: `Sub` called from `helper` on the normal handle
of the example world. -/
theorem C5_sub_caller_is_calling_function_witness :
    (demoWorld OutputConfig.initial).deref 0 = some ⟨5, 40, "main", "", false⟩ ∧
    ∃ q w1 n, Stat.Sub (demoWorld OutputConfig.initial) demoStack 0 "worker" none
        = some (q, w1) ∧ w1.deref q = some n ∧
      n.Caller = callerOf demoStack ++ "(" ++ "worker" ++ ")" ∧
      (∀ fr rest, demoStack = fr :: rest → n.Caller = fr.fn ++ "(" ++ "worker" ++ ")") ∧
      (callerOf demoStack = (⟨5, 40, "main", "", false⟩ : Stat).Caller →
        n.Caller = (⟨5, 40, "main", "", false⟩ : Stat).Caller ++ "(" ++ "worker" ++ ")") :=
  ⟨rfl, C5_sub_caller_is_calling_function (demoWorld OutputConfig.initial) demoStack 0
    ⟨5, 40, "main", "", false⟩ rfl "worker" none⟩

/-- C6, as stated, fails: the child of a handle on logger 5 is on the default
logger 7. -/
theorem C6_counterexample :
    ((demoWorld OutputConfig.initial).deref 0).map Stat.Logger = some 5 ∧
    (demoWorld OutputConfig.initial).DefaultLogger = 7 ∧
    (Stat.Sub (demoWorld OutputConfig.initial) demoStack 0 "worker" none).map
        (fun r => (r.2.deref r.1).map Stat.Logger)
      = some (some 7) ∧
    (Stat.Sub (demoWorld OutputConfig.initial) demoStack 0 "worker" none).map
        (fun r => r.2.out.map Record.logger)
      = some [7] := by
  refine ⟨?_, rfl, ?_, ?_⟩ <;> decide

/-- C6, amended. The handle returned by `p.Sub(name, ctx)` is on the package
default logger (the sink of `p` only when `p` is on the default logger too), has
the debug mode of `p`, and is a new handle: `p` and every other handle are left
as they were, and so are the package variables. -/
theorem C6_sub_default_logger_same_mode (w : World) (st : Stack) (p : Ptr) (s : Stat)
    (h : w.deref p = some s) (name : String) (ctx : Option C) :
    ∃ q w1 n, Stat.Sub w st p name ctx = some (q, w1) ∧ w1.deref q = some n ∧
      n.Logger = w.DefaultLogger ∧
      (s.Logger = w.DefaultLogger → n.Logger = s.Logger) ∧
      n.dmode = s.dmode ∧
      q ≠ p ∧
      w1.deref p = some s ∧
      (∀ p2 s2, w.deref p2 = some s2 → w1.deref p2 = some s2) ∧
      w1.DefaultLogger = w.DefaultLogger ∧ w1.config = w.config ∧
      (∀ r ∈ w1.out, r ∈ w.out ∨ r.logger = w.DefaultLogger) := by
  refine ⟨_, _, _, Sub_eq w st p s h name ctx, deref_last _ _ _, rfl, ?_, rfl, ?_,
    deref_kept _ _ _ _ _ h, ?_, rfl, rfl, ?_⟩
  · intro hl
    rw [hl]
    rfl
  · intro hq
    have hnone : w.deref w.heap.length = none := by
      simp [World.deref]
    rw [hq, h] at hnone
    exact absurd hnone (by simp)
  · intro p2 s2 h2
    exact deref_kept _ _ _ _ _ h2
  · intro r hr
    simp only [List.mem_append] at hr
    rcases hr with hr | hr
    · exact Or.inl hr
    · right
      split at hr
      · simp only [List.mem_singleton] at hr
        rw [hr]
        rfl
      · simp at hr

/-- Witness of the amended C6: `Sub` on the normal handle of the example
world, which is on logger 5 while the default logger is 7. -/
theorem C6_sub_default_logger_same_mode_witness :
    (demoWorld OutputConfig.initial).deref 0 = some ⟨5, 40, "main", "", false⟩ ∧
    ∃ q w1 n, Stat.Sub (demoWorld OutputConfig.initial) demoStack 0 "worker" none
        = some (q, w1) ∧ w1.deref q = some n ∧
      n.Logger = (demoWorld OutputConfig.initial).DefaultLogger ∧
      n.dmode = (⟨5, 40, "main", "", false⟩ : Stat).dmode ∧
      w1.deref 0 = some ⟨5, 40, "main", "", false⟩ :=
  match C6_sub_default_logger_same_mode (demoWorld OutputConfig.initial) demoStack 0
    ⟨5, 40, "main", "", false⟩ rfl "worker" none with
  | ⟨q, w1, n, h1, h2, h3, _, h5, _, h7, _⟩ => ⟨rfl, q, w1, n, h1, h2, h3, h5, h7⟩


theorem intercalate_go_data (s : String) (l : List String) :
    ∀ acc : String, (String.intercalate.go acc s l).data
      = acc.data ++ (l.map fun a => s.data ++ a.data).flatten := by
  induction l with
  | nil => intro acc; simp [String.intercalate.go]
  | cons a l ih => intro acc; simp [String.intercalate.go, ih]

theorem intercalate_ne_empty (s : String) (items : List String) (hne : items ≠ [])
    (hitem : ∀ i ∈ items, i ≠ "") : s.intercalate items ≠ "" := by
  cases items with
  | nil => exact absurd rfl hne
  | cons a l =>
    intro h
    have hd := congrArg String.data h
    simp only [String.intercalate, intercalate_go_data, List.append_eq_nil] at hd
    exact hitem a (List.mem_cons_self a l) (String.ext hd.1)

theorem perm_pair_cases {α : Type} (a b : α) (l : List α) (h : l.Perm [a, b]) :
    l = [a, b] ∨ l = [b, a] := by
  have hl : l.length = 2 := by simpa using h.length_eq
  obtain ⟨x, y, rfl⟩ := List.length_eq_two.mp hl
  have hx : x = a ∨ x = b := by simpa using h.subset (List.mem_cons_self x [y])
  have hy : y = a ∨ y = b := by
    simpa using h.subset (List.mem_cons_of_mem x (List.mem_cons_self y []))
  have ha : a = x ∨ a = y := by simpa using h.symm.subset (List.mem_cons_self a [b])
  have hb : b = x ∨ b = y := by
    simpa using h.symm.subset (List.mem_cons_of_mem a (List.mem_cons_self b []))
  rcases hx with rfl | rfl <;> rcases hy with rfl | rfl
  · rcases hb with rfl | rfl <;> exact Or.inl rfl
  · exact Or.inl rfl
  · exact Or.inr rfl
  · rcases ha with rfl | rfl <;> exact Or.inl rfl

theorem C_String_plain (lib : Lib) (c : C) :
    C_String lib Styles.plain c = " " ++ ", ".intercalate (c.map entryText) := by
  have hf : ("%s[" ++ Styles.plain.SVal "%v" ++ "]") = "%s[%v]" := by decide
  have hm : (c.map fun kv =>
      Sprintf lib ("%s[" ++ Styles.plain.SVal "%v" ++ "]")
        [some (Value.ofString (Styles.plain.SKey kv.1)), kv.2]) = c.map entryText := by
    apply List.map_congr_left
    intro kv _
    rw [hf]
    exact Sprintf_entry lib kv.1 kv.2
  simp only [C_String, hm]

/-- C7. With styling removed, `C.String` of a context whose entries `range`
yields in the order `iter` (a permutation of the entries of the map `c`) is one
space followed by those entries, each as `key[value]`, joined by `", "` in that
order; for the map a:1, b:"x" the result is `" a[1], b[x]"` or `" b[x], a[1]"`.
The equation holds for every map, so for every map with at least one entry. -/
theorem C7_context_string_plain (w : World) (c iter : C) (hperm : iter.Perm c) :
    C_String (RemoveFormat w).lib (RemoveFormat w).styles iter
      = " " ++ ", ".intercalate (iter.map fun kv => kv.1 ++ "[" ++ valueText kv.2 ++ "]") ∧
    (iter.map fun kv => kv.1 ++ "[" ++ valueText kv.2 ++ "]").Perm
      (c.map fun kv => kv.1 ++ "[" ++ valueText kv.2 ++ "]") ∧
    (c = [("a", some (Value.ofInt 1)), ("b", some (Value.ofString "x"))] →
      C_String (RemoveFormat w).lib (RemoveFormat w).styles iter = " a[1], b[x]" ∨
      C_String (RemoveFormat w).lib (RemoveFormat w).styles iter = " b[x], a[1]") := by
  have hs : (RemoveFormat w).styles = Styles.plain := rfl
  refine ⟨?_, hperm.map _, ?_⟩
  · rw [hs, C_String_plain]
    rfl
  · intro hc
    subst hc
    rw [hs]
    rcases perm_pair_cases _ _ _ hperm with h | h
    · left
      rw [h, C_String_plain]
      decide
    · right
      rw [h, C_String_plain]
      decide

/-- Witness of C7: the map a:1, b:"x" ranged over from `b` to `a`. -/
theorem C7_context_string_plain_witness :
    [("b", some (Value.ofString "x")), ("a", some (Value.ofInt 1))].Perm
        [("a", some (Value.ofInt 1)), ("b", some (Value.ofString "x"))] ∧
    C_String (RemoveFormat (freshWorld OutputConfig.initial)).lib
        (RemoveFormat (freshWorld OutputConfig.initial)).styles
        [("b", some (Value.ofString "x")), ("a", some (Value.ofInt 1))] = " b[x], a[1]" ∧
    (C_String (RemoveFormat (freshWorld OutputConfig.initial)).lib
        (RemoveFormat (freshWorld OutputConfig.initial)).styles
        [("b", some (Value.ofString "x")), ("a", some (Value.ofInt 1))] = " a[1], b[x]" ∨
      C_String (RemoveFormat (freshWorld OutputConfig.initial)).lib
        (RemoveFormat (freshWorld OutputConfig.initial)).styles
        [("b", some (Value.ofString "x")), ("a", some (Value.ofInt 1))] = " b[x], a[1]") :=
  ⟨List.Perm.swap _ _ _, by decide,
    (C7_context_string_plain (freshWorld OutputConfig.initial)
      [("a", some (Value.ofInt 1)), ("b", some (Value.ofString "x"))]
      [("b", some (Value.ofString "x")), ("a", some (Value.ofInt 1))]
      (List.Perm.swap _ _ _)).2.2 rfl⟩

/-- C8 fails on the code for the empty, non-nil map: `New`, `NewDbg` and `Sub`
store the one-space string as `Context`, which is neither the empty string nor
a space followed by one or more entries, and the start line then ends in a
blank. -/
theorem C8_empty_map_gives_lone_space (w : World) (st : Stack) (p : Ptr) (name : String) :
    ((New w st (some [])).2.deref (New w st (some [])).1).map Stat.Context = some " " ∧
    ((NewDbg w st (some [])).2.deref (NewDbg w st (some [])).1).map Stat.Context = some " " ∧
    (Stat.Sub w st p name (some [])).map (fun r => (r.2.deref r.1).map Stat.Context)
      = (w.deref p).map (fun _ => some " ") ∧
    (" " : String) ≠ "" ∧
    (∀ items : List String, items ≠ [] → (∀ i ∈ items, i ≠ "") →
      (" " : String) ≠ " " ++ ", ".intercalate items) ∧
    (New (freshWorld OutputConfig.initial) demoStack (some [])).2.out
      = [⟨7, 2, "helper.go:12 : helper start "⟩] ∧
    (New (freshWorld OutputConfig.initial) demoStack none).2.out
      = [⟨7, 2, "helper.go:12 : helper start"⟩] := by
  have he : ∀ (lib : Lib) (sty : Styles), C_String lib sty [] = " " := by
    intro lib sty
    rfl
  refine ⟨?_, ?_, ?_, by decide, ?_, by decide, by decide⟩
  · rw [New_eq, deref_last]
    simp [newStat, he]
  · rw [NewDbg_eq, deref_last]
    simp [newStat, he]
  · cases h : w.deref p with
    | none => simp [Stat.Sub, h]
    | some s =>
      rw [Sub_eq w st p s h]
      simp only [Option.map_some', deref_last]
      simp [newStat, he]
  · intro items hne hitem h
    have hd := congrArg String.data h
    simp only [String.data_append] at hd
    have hnil : (", ".intercalate items).data = [] := by
      have h2 : (" " : String).data ++ [] = (" " : String).data ++ (", ".intercalate items).data := by
        simpa using hd
      exact (List.append_cancel_left h2).symm
    exact intercalate_ne_empty ", " items hne hitem (String.ext hnil)


/-- C9. The line `logfmt` writes is `<file>:<line> : <Caller> <label><Context>`
and nothing more when the format is empty, and that same text followed by
`": "` and the rendering of the format with its arguments otherwise (`lineText`,
spelled out in the first part); file and line are those of the frame `d` levels
above the caller of `logfmt`.  Hence, on every handle, `I`, `W` and `E` write
that line with their label for the place of their caller, `ED` for the frame
`d` above its caller, and `New`, `NewDbg` and `Sub` write it with the start
label and no payload.  `"failed: %d"` with 42 renders as `failed: 42`, so
`E("failed: %d", 42)` writes a line ending in `failed: 42`. -/
theorem C9_line_layout (w : World) (st : Stack) (s0 : Stat) (d : Nat)
    (level format name : String) (v : List Arg) (ctx : Option C) :
    (∀ (loc : String × Nat) (caller label c : String),
      lineText w.lib loc caller label c format v
        = if format = "" then
            loc.1 ++ ":" ++ toString loc.2 ++ " : " ++ caller ++ " " ++ label ++ c
          else
            loc.1 ++ ":" ++ toString loc.2 ++ " : " ++ caller ++ " " ++ label ++ c ++ ": " ++
              Sprintf w.lib format v) ∧
    Stat.logfmt w st s0 d level format v
      = w.Output s0.Logger (d + 1)
          (lineText w.lib (fileName (pkgFrame "(*Stat).logfmt" 110 :: st) (d + 1))
            s0.Caller level s0.Context format v) ∧
    (Stat.logfmt w st s0 d level format v).out
      = w.out ++ [⟨s0.Logger, d + 1,
          if format = "" then
            (fileName (pkgFrame "(*Stat).logfmt" 110 :: st) (d + 1)).1 ++ ":" ++
              toString (fileName (pkgFrame "(*Stat).logfmt" 110 :: st) (d + 1)).2 ++ " : " ++
              s0.Caller ++ " " ++ level ++ s0.Context
          else
            (fileName (pkgFrame "(*Stat).logfmt" 110 :: st) (d + 1)).1 ++ ":" ++
              toString (fileName (pkgFrame "(*Stat).logfmt" 110 :: st) (d + 1)).2 ++ " : " ++
              s0.Caller ++ " " ++ level ++ s0.Context ++ ": " ++ Sprintf w.lib format v⟩] ∧
    fileName (pkgFrame "(*Stat).logfmt" 110 :: st) (d + 1)
      = (match st.get? d with
        | some fr => (trimDir fr.file, fr.line)
        | none => ("", 0)) ∧
    (∃ n, (New w st ctx).2.deref (New w st ctx).1 = some n ∧
      (New w st ctx).2.out
        = if w.config.ShowStarts then
            w.out ++ [⟨n.Logger, 2,
              lineText w.lib (site st 0) n.Caller w.styles.LStart n.Context "" []⟩]
          else w.out) ∧
    (∃ n, (NewDbg w st ctx).2.deref (NewDbg w st ctx).1 = some n ∧
      (NewDbg w st ctx).2.out
        = if w.config.ShowDebug then
            w.out ++ [⟨n.Logger, 2,
              lineText w.lib (site st 0) n.Caller w.styles.LStart n.Context "" []⟩]
          else w.out) ∧
    (∀ (p : Ptr) (s : Stat), w.deref p = some s →
      Stat.I w st p format v
        = some (if gate w.config s.dmode w.config.ShowInfos then
            w.Output s.Logger 2
              (lineText w.lib (site st 0) s.Caller w.styles.LInfo s.Context format v)
          else w) ∧
      Stat.W w st p format v
        = some (if gate w.config s.dmode w.config.ShowWarns then
            w.Output s.Logger 2
              (lineText w.lib (site st 0) s.Caller w.styles.LWarn s.Context format v)
          else w) ∧
      Stat.E w st p format v
        = some (if gate w.config s.dmode w.config.ShowErrors then
            w.Output s.Logger 2
              (lineText w.lib (site st 0) s.Caller w.styles.LErr s.Context format v)
          else w) ∧
      Stat.ED w st p d format v
        = some (if w.config.ShowErrors then
            w.Output s.Logger (d + 2)
              (lineText w.lib (site st d) s.Caller w.styles.LErr s.Context format v)
          else w) ∧
      ∃ q w1 n, Stat.Sub w st p name ctx = some (q, w1) ∧ w1.deref q = some n ∧
        w1.out
          = if gate w.config s.dmode w.config.ShowStarts then
              w.out ++ [⟨n.Logger, 2,
                lineText w.lib (site st 0) n.Caller w.styles.LStart n.Context "" []⟩]
            else w.out) ∧
    Sprintf w.lib "failed: %d" [some (Value.ofInt 42)] = "failed: 42" ∧
    (Stat.E (demoWorld OutputConfig.initial) demoStack 0 "failed: %d"
        [some (Value.ofInt 42)]).map World.out
      = some [⟨5, 2, "helper.go:12 : main error: failed: 42"⟩] ∧
    (Stat.I (demoWorld OutputConfig.initial) demoStack 1 "" []).map World.out
      = some [⟨5, 2, "helper.go:12 : main info k[v]"⟩] ∧
    (Stat.ED (demoWorld OutputConfig.initial) demoStack 0 0 "" []).map World.out
      = some [⟨5, 2, "helper.go:12 : main error"⟩] ∧
    (Stat.W (demoWorld OutputConfig.initial) demoStack 0 "disk %s at %d%%"
        [some (Value.ofString "sda"), some (Value.ofInt 91)]).map World.out
      = some [⟨5, 2, "helper.go:12 : main warn: disk sda at 91%"⟩] ∧
    (New (freshWorld OutputConfig.initial) demoStack
        (some [("user", some (Value.ofString "alice"))])).2.out
      = [⟨7, 2, "helper.go:12 : helper start user[alice]"⟩] := by
  have hlog : Stat.logfmt w st s0 d level format v
      = w.Output s0.Logger (d + 1)
          (lineText w.lib (fileName (pkgFrame "(*Stat).logfmt" 110 :: st) (d + 1))
            s0.Caller level s0.Context format v) := by
    unfold Stat.logfmt
    by_cases hf : format = ""
    · simp [hf, lineText, Sprintf_base]
    · simp [hf, lineText, Sprintf_payload]
  have hstart : ∀ n : Stat, startRecord w st n
      = ⟨n.Logger, 2, lineText w.lib (site st 0) n.Caller w.styles.LStart n.Context "" []⟩ := by
    intro n
    simp [startRecord, specLine, lineText]
  refine ⟨fun _ _ _ _ => rfl, hlog, ?_, ?_, ?_, ?_, ?_, ?_, by decide, by decide, by decide,
    by decide, by decide⟩
  · rw [hlog]
    by_cases hf : format = "" <;> simp [hf, World.Output, lineText]
  · simp only [fileName, runtimeCaller, List.get?_cons_succ]
    cases st.get? d <;> simp [trimDir_empty]
  · refine ⟨newStat w (callerOf st) ctx false, ?_, ?_⟩
    · rw [New_eq]; exact deref_last _ _ _
    · rw [New_eq, ← hstart]
      cases hS : w.config.ShowStarts <;> simp
  · refine ⟨newStat w (callerOf st) ctx true, ?_, ?_⟩
    · rw [NewDbg_eq]; exact deref_last _ _ _
    · rw [NewDbg_eq, ← hstart]
      cases hS : w.config.ShowDebug <;> simp
  · intro p s h
    refine ⟨?_, ?_, ?_, ?_, ?_⟩
    · rw [I_eq w st p s h, specLine_payloadOf]
    · rw [W_eq w st p s h, specLine_payloadOf]
    · rw [E_eq w st p s h, specLine_payloadOf]
    · rw [ED_eq w st p s h, specLine_payloadOf]
    · refine ⟨_, _, _, Sub_eq w st p s h name ctx, deref_last _ _ _, ?_⟩
      rw [← hstart]
      cases hg : gate w.config s.dmode w.config.ShowStarts <;> simp
  · apply String.ext
    simp [Sprintf, doPrintf, printArg, Value.ofInt, extraArgs]
    decide

/-- Witness of C9: `E("failed: %d", 42)` on the normal handle of the example
world, called from line 12 of `helper.go`. -/
theorem C9_line_layout_witness :
    (demoWorld OutputConfig.initial).deref 0 = some ⟨5, 40, "main", "", false⟩ ∧
    Stat.E (demoWorld OutputConfig.initial) demoStack 0 "failed: %d" [some (Value.ofInt 42)]
      = some (if gate (demoWorld OutputConfig.initial).config
            (⟨5, 40, "main", "", false⟩ : Stat).dmode
            (demoWorld OutputConfig.initial).config.ShowErrors then
          (demoWorld OutputConfig.initial).Output (⟨5, 40, "main", "", false⟩ : Stat).Logger 2
            (lineText (demoWorld OutputConfig.initial).lib (site demoStack 0)
              (⟨5, 40, "main", "", false⟩ : Stat).Caller
              (demoWorld OutputConfig.initial).styles.LErr
              (⟨5, 40, "main", "", false⟩ : Stat).Context "failed: %d"
              [some (Value.ofInt 42)])
        else demoWorld OutputConfig.initial) ∧
    lineText (demoWorld OutputConfig.initial).lib (site demoStack 0) "main" "error" ""
        "failed: %d" [some (Value.ofInt 42)]
      = "helper.go:12 : main error: failed: 42" :=
  ⟨rfl,
    ((C9_line_layout (demoWorld OutputConfig.initial) demoStack ⟨5, 40, "main", "", false⟩ 0
      "" "failed: %d" "" [some (Value.ofInt 42)] none).2.2.2.2.2.2.1 0
      ⟨5, 40, "main", "", false⟩ rfl).2.2.1,
    by decide⟩

/-- C10. With its gate open, `Detail(level, head, v)` returns and writes one
line, whether or not the serialization of `v` succeeds: the payload is `head`,
then `" -> \n"`, then the indented serialization of `v`, or nothing when the
serialization fails. -/
theorem C10_detail_survives_serialization_failure (w : World) (st : Stack) (p : Ptr)
    (s : Stat) (h : w.deref p = some s)
    (hg : gate w.config s.dmode w.config.ShowDetails = true)
    (level head : String) (x : Arg) :
    ∃ w1, Stat.Detail w st p level head x = some w1 ∧
      w1.out.length = w.out.length + 1 ∧
      (w.lib.marshalIndent x = none →
        w1.out = w.out ++ [⟨s.Logger, 2,
          (site st 0).1 ++ ":" ++ toString (site st 0).2 ++ " : " ++ s.Caller ++ " " ++ level ++
            s.Context ++ ": " ++ (head ++ " -> \n" ++ "")⟩]) ∧
      (∀ js, w.lib.marshalIndent x = some js →
        w1.out = w.out ++ [⟨s.Logger, 2,
          (site st 0).1 ++ ":" ++ toString (site st 0).2 ++ " : " ++ s.Caller ++ " " ++ level ++
            s.Context ++ ": " ++ (head ++ " -> \n" ++ js)⟩]) := by
  refine ⟨_, Detail_eq w st p s h level head x, ?_, ?_, ?_⟩
  · simp [hg, World.Output]
  · intro hm
    simp [hg, World.Output, specLine, hm]
  · intro js hm
    simp [hg, World.Output, specLine, hm]

/-- Witness of C10: a channel, which does not serialize, passed to `Detail` on
the normal handle of the example world. -/
theorem C10_detail_survives_serialization_failure_witness :
    (demoWorld OutputConfig.initial).deref 0 = some ⟨5, 40, "main", "", false⟩ ∧
    gate (demoWorld OutputConfig.initial).config (⟨5, 40, "main", "", false⟩ : Stat).dmode
      (demoWorld OutputConfig.initial).config.ShowDetails = true ∧
    (demoWorld OutputConfig.initial).lib.marshalIndent
      (some ⟨"chan int", "0xc000012345", fun _ => none⟩) = none ∧
    ∃ w1, Stat.Detail (demoWorld OutputConfig.initial) demoStack 0 "note" "queue"
        (some ⟨"chan int", "0xc000012345", fun _ => none⟩) = some w1 ∧
      w1.out = [⟨5, 2, "helper.go:12 : main note: queue -> \n"⟩] :=
  match C10_detail_survives_serialization_failure (demoWorld OutputConfig.initial) demoStack 0
    ⟨5, 40, "main", "", false⟩ rfl rfl "note" "queue"
    (some ⟨"chan int", "0xc000012345", fun _ => none⟩) with
  | ⟨w1, h1, _, h3, _⟩ => ⟨rfl, rfl, rfl, w1, h1, (h3 rfl).trans (by decide)⟩

end Ulog
